import Mathlib

set_option maxRecDepth 8000

/-!
Shallow embedding of the QuMail secure-channel subsystem.

Part 1 models the hybrid key-exchange primitives of
src/frontend/src/services/quantumService.js.  JavaScript strings are
embedded as lists of UTF-16 code units (all strings involved are ASCII),
string concatenation is list append, and the sources of randomness
(crypto.getRandomValues draws, surfaced as base64 strings by
_generateRandomBase64) are passed as explicit parameters.

Part 2 models the ChatService transport layer of the WebSocket chat file
(reconnection backoff, voluntary/involuntary closure, send, dispatch).
-/

/-- Code units of an ASCII string literal, the embedding of a JS string. -/
def str2codes (s : String) : List Nat := s.data.map Char.toNat

/-- Reduction of an integer into the signed 32-bit range, the effect of
the JS ToInt32 conversion performed by the bitwise operators in
_simpleHash. -/
def toInt32 (n : Int) : Int := (n + 2147483648) % 4294967296 - 2147483648

/-- One iteration of the _simpleHash loop:
hash = ((hash << 5) - hash) + char; hash = hash & hash.  The shift
operates on the 32-bit value, the subtraction and addition are exact,
and the final bitwise-and truncates back to 32 bits. -/
def hashStep (h : Int) (c : Nat) : Int := toInt32 (toInt32 (h * 32) - h + c)

/-- Code of a lowercase hexadecimal digit, as produced by JS
Number.prototype.toString with radix 16. -/
def hexDigitCode (n : Nat) : Nat := if n < 10 then 48 + n else 87 + n

/-- Hexadecimal digits of a natural number, most significant first.
The fuel argument makes the recursion structural; 16 digits cover every
value below 16^16, far beyond the 32-bit range _simpleHash produces. -/
def hexDigitsAux : Nat → Nat → List Nat
  | 0, _ => []
  | fuel + 1, n =>
    if n < 16 then [hexDigitCode n]
    else hexDigitsAux fuel (n / 16) ++ [hexDigitCode (n % 16)]

/-- Hexadecimal rendering of a natural number (lowercase, no leading
zeros, and the single digit 0 for zero). -/
def hexDigits (n : Nat) : List Nat := hexDigitsAux 16 n

/-- JS Number.prototype.toString(16) on a (32-bit) integer: negative
values render as a minus sign followed by the digits of the absolute
value. -/
def jsToHexString (v : Int) : List Nat :=
  if v < 0 then 45 :: hexDigits v.natAbs else hexDigits v.toNat

/-- JS String.prototype.padStart(8, the zero digit): left-pad to
length 8; longer strings are returned unchanged. -/
def padStart8 (l : List Nat) : List Nat := List.replicate (8 - l.length) 48 ++ l

/-- The for-loop of _simpleHash: thread the 32-bit hash state through
the code units.  The inner match re-examines the constructor of the new
state so that kernel evaluation of long inputs runs in constant stack;
hashLoop_eq_foldl shows it is the plain left fold of hashStep. -/
def hashLoop : List Nat → Int → Int
  | [], h => h
  | c :: rest, h =>
    match hashStep h c with
    | Int.ofNat m => hashLoop rest (Int.ofNat m)
    | Int.negSucc m => hashLoop rest (Int.negSucc m)

/-- The _simpleHash function of quantumService.js: run the 32-bit hash
loop over the code units, render in hexadecimal, pad to 8 characters,
and concatenate 4 copies (String.prototype.repeat(4)). -/
def simpleHash (input : List Nat) : List Nat :=
  let block := padStart8 (jsToHexString (hashLoop input 0))
  block ++ block ++ block ++ block

/-- Character of the base64 alphabet at a given index. -/
def b64char (n : Nat) : Nat :=
  if n < 26 then 65 + n
  else if n < 52 then 71 + n
  else if n < 62 then n - 4
  else if n = 62 then 43
  else 47

/-- The JS btoa builtin on a Latin-1 string, embedded over code units:
standard base64 with trailing padding characters. -/
def btoa : List Nat → List Nat
  | [] => []
  | [a] => [b64char (a / 4), b64char (a % 4 * 16), 61, 61]
  | [a, b] => [b64char (a / 4), b64char (a % 4 * 16 + b / 16), b64char (b % 16 * 4), 61]
  | a :: b :: c :: rest =>
    b64char (a / 4) :: b64char (a % 4 * 16 + b / 16) ::
      b64char (b % 16 * 4 + c / 64) :: b64char (c % 64) :: btoa rest

/-!
Data model of the hybrid key exchange.  Identifier and timestamp
metadata fields (keypair_id, encapsulation_id, generated_at, timestamp,
algorithm, security_level) play no role in the key agreement and are
omitted; every cryptographic field of the source records is kept.
-/

/-- The hybrid key pair produced by generateHybridKeyPair. -/
structure HybridKeyPair where
  x25519_public_key : List Nat
  x25519_private_key : List Nat
  kyber_public_key : List Nat
  kyber_secret_key : List Nat
deriving DecidableEq, Repr

/-- The public halves of a hybrid key pair, the shape that
encapsulateHybridKey reads from its remoteHybridPublicKey argument. -/
structure HybridPublicKey where
  x25519_public_key : List Nat
  kyber_public_key : List Nat
deriving DecidableEq, Repr

/-- The encapsulation record produced by encapsulateHybridKey. -/
structure EncapsulationResult where
  x25519_public_key : List Nat
  kyber_ciphertext : List Nat
  kyber_auth_tag : List Nat
  session_key : List Nat
deriving DecidableEq, Repr

/-- The result record of _kyberEncapsulate. -/
structure KyberEncapsulation where
  sharedSecret : List Nat
  ciphertext : List Nat
  authTag : List Nat
deriving DecidableEq, Repr

/-- The _deriveKyberPublicKey helper: hash the secret key together with
a fixed derivation tag, base64 the digest, and truncate to the Kyber-768
public-key size (the truncation is a no-op on the short digest). -/
def deriveKyberPublicKey (secretKey : List Nat) : List Nat :=
  (btoa (simpleHash (secretKey ++ str2codes "QuMail-Kyber-PubKey-Derivation"))).take 1184

/-- The _performX25519ECDH helper: hash of our private key concatenated
with the remote public key and a fixed tag. -/
def performX25519ECDH (ourPrivate remotePublic : List Nat) : List Nat :=
  simpleHash ((ourPrivate ++ remotePublic) ++ str2codes "X25519-SharedSecret")

/-- The _kyberEncapsulate helper: shared secret, ciphertext and auth tag
are all derived by hashing from the remote public key alone. -/
def kyberEncapsulate (remoteKyberPublic : List Nat) : KyberEncapsulation :=
  let sharedSecret := simpleHash (remoteKyberPublic ++ str2codes "Kyber-SharedSecret-Derivation")
  let ciphertext := simpleHash (sharedSecret ++ str2codes "Kyber-Ciphertext")
  let authTag := (simpleHash (ciphertext ++ str2codes "Kyber-AuthTag")).take 32
  { sharedSecret := sharedSecret, ciphertext := btoa ciphertext, authTag := btoa authTag }

/-- The _kyberDecapsulate helper.  The ciphertext and authTag parameters
are received but never read: the shared secret is recomputed from the
public key that _deriveKyberPublicKey rebuilds out of our secret key. -/
def kyberDecapsulate (ciphertext authTag ourKyberSecret : List Nat) : List Nat :=
  let _ := ciphertext
  let _ := authTag
  let ourPublicKey := deriveKyberPublicKey ourKyberSecret
  simpleHash (ourPublicKey ++ str2codes "Kyber-SharedSecret-Derivation")

/-- The _deriveHybridSessionKey helper: hash of the Kyber shared secret
concatenated with the X25519 shared secret (combinedSecrets, in that
order) followed by the fixed salt string. -/
def deriveHybridSessionKey (kyberSharedSecret x25519SharedSecret : List Nat) : List Nat :=
  simpleHash ((kyberSharedSecret ++ x25519SharedSecret) ++ str2codes "QuMail-Hybrid-Session-Key-v1")

/-- The generateHybridKeyPair method.  The three randomness draws
(_generateRandomBase64 32, 32 and 2400 bytes, already base64 encoded)
are explicit parameters; the Kyber public key is derived
deterministically from the Kyber secret key. -/
def generateHybridKeyPair (xPrivRand xPubRand kyberSecretRand : List Nat) : HybridKeyPair :=
  { x25519_public_key := xPubRand
    x25519_private_key := xPrivRand
    kyber_public_key := deriveKyberPublicKey kyberSecretRand
    kyber_secret_key := kyberSecretRand }

/-- The public halves of a key pair, as transmitted to the peer. -/
def publicHalves (kp : HybridKeyPair) : HybridPublicKey :=
  { x25519_public_key := kp.x25519_public_key, kyber_public_key := kp.kyber_public_key }

/-- The encapsulateHybridKey method.  The two randomness draws of the
ephemeral _generateX25519KeyPair call are explicit parameters. -/
def encapsulateHybridKey (remote : HybridPublicKey) (ephPrivRand ephPubRand : List Nat) :
    EncapsulationResult :=
  let x25519SharedSecret := performX25519ECDH ephPrivRand remote.x25519_public_key
  let kyberResult := kyberEncapsulate remote.kyber_public_key
  let finalSessionKey := deriveHybridSessionKey kyberResult.sharedSecret x25519SharedSecret
  { x25519_public_key := ephPubRand
    kyber_ciphertext := kyberResult.ciphertext
    kyber_auth_tag := kyberResult.authTag
    session_key := finalSessionKey }

/-- The decapsulateHybridKey method.  Every operation in its body is a
total string computation, so the try/catch of the source can never take
the error branch: the function always returns a session key. -/
def decapsulateHybridKey (encapsulatedData : EncapsulationResult) (ourHybridKeyPair : HybridKeyPair) :
    List Nat :=
  let x25519SharedSecret :=
    performX25519ECDH ourHybridKeyPair.x25519_private_key encapsulatedData.x25519_public_key
  let kyberSharedSecret :=
    kyberDecapsulate encapsulatedData.kyber_ciphertext encapsulatedData.kyber_auth_tag
      ourHybridKeyPair.kyber_secret_key
  deriveHybridSessionKey kyberSharedSecret x25519SharedSecret

/-!
Concrete test vectors: key material produced by explicit randomness
draws of the correct sizes (32 random bytes for each X25519 half, 2400
random bytes for the Kyber secret key, each base64 encoded exactly as
_generateRandomBase64 would return them).
-/

/-- Responder X25519 private-key randomness: base64 of 32 zero bytes. -/
def rXPriv : List Nat := btoa (List.replicate 32 0)

/-- Responder X25519 public-key randomness: base64 of 32 bytes 0x01. -/
def rXPub : List Nat := btoa (List.replicate 32 1)

/-- Responder Kyber secret-key randomness: base64 of 2400 bytes 0x04. -/
def rKyberSec : List Nat := btoa (List.replicate 2400 4)

/-- Initiator ephemeral X25519 private-key randomness. -/
def eXPriv : List Nat := btoa (List.replicate 32 2)

/-- Initiator ephemeral X25519 public-key randomness. -/
def eXPub : List Nat := btoa (List.replicate 32 3)

/-- A concrete responder key pair. -/
def kp0 : HybridKeyPair := generateHybridKeyPair rXPriv rXPub rKyberSec

/-- A concrete encapsulation by the initiator against kp0. -/
def enc0 : EncapsulationResult := encapsulateHybridKey (publicHalves kp0) eXPriv eXPub

/-- A second encapsulation against kp0 with fresh ephemeral randomness
(base64 of 32 bytes 0x05 and 0x06). -/
def enc1 : EncapsulationResult :=
  encapsulateHybridKey (publicHalves kp0) (btoa (List.replicate 32 5)) (btoa (List.replicate 32 6))

/-- An encapsulation record whose Kyber ciphertext was truncated to
zero length before decapsulation. -/
def encZeroCt : EncapsulationResult := { enc0 with kyber_ciphertext := [] }

/-- The JSON body sent by sendHybridCiphertext (step 5 of the
handshake). -/
structure CiphertextBody where
  pqc_ciphertext : List Nat
  classic_key_share : List Nat
  signature : List Nat
deriving DecidableEq, Repr

/-- The body construction of sendHybridCiphertext: the Kyber ciphertext,
the ephemeral classical public key, and the signature field of the
encapsulated data, which encapsulateHybridKey never sets, so the
placeholder string is substituted (the or-else of the source). -/
def sendHybridCiphertextBody (encapsulatedData : EncapsulationResult)
    (signature : Option (List Nat)) : CiphertextBody :=
  { pqc_ciphertext := encapsulatedData.kyber_ciphertext
    classic_key_share := encapsulatedData.x25519_public_key
    signature := signature.getD (str2codes "placeholder_signature") }

/-- The list of field values a CiphertextBody puts on the wire. -/
def bodyFields (b : CiphertextBody) : List (List Nat) :=
  [b.pqc_ciphertext, b.classic_key_share, b.signature]

/-- The fixed context label (salt) of _deriveHybridSessionKey. -/
def hybridSessionKeyLabel : List Nat := str2codes "QuMail-Hybrid-Session-Key-v1"

/-- Modelled from the spec: the key-derivation contract
sessionKey = KDF(pqSharedSecret || classicalSharedSecret, label), with
the PQ shared secret first, instantiated with the hash the code uses as
its KDF. -/
def kdfContract (pqSharedSecret classicalSharedSecret label : List Nat) : List Nat :=
  simpleHash ((pqSharedSecret ++ classicalSharedSecret) ++ label)

example : enc0.session_key = str2codes "-3a9cf01d-3a9cf01d-3a9cf01d-3a9cf01d" := by decide
example : decapsulateHybridKey enc0 kp0 = str2codes "1ca8a6431ca8a6431ca8a6431ca8a643" := by decide

/-!
Part 2: the ChatService WebSocket layer.  The connection state is the
quadruple of mutable fields the service keeps (websocket handle
presence, isConnected, reconnectAttempts, reconnectDelay in
milliseconds).  Handlers of the messageHandlers map are embedded as a
list of (type tag, handler) pairs in insertion order; a handler is a
record of an identifier and whether its callback throws when invoked.
-/

/-- A registered message handler: an identity and whether calling it
throws. -/
structure Handler where
  id : Nat
  throws : Bool
deriving DecidableEq, Repr

/-- Invoking a handler: its only observable effects in the model are
that it ran and whether it threw. -/
def runHandler (h : Handler) : Except Unit Unit :=
  if h.throws then Except.error () else Except.ok ()

/-- One iteration of a forEach loop over the handler map guarded by a
type predicate: when the tag matches, the handler is invoked inside
try/catch, so a throwing handler is logged and iteration continues;
either way its id is recorded as invoked. -/
def invokeStep (shouldCall : List Nat → Bool) (acc : List Nat) (p : List Nat × Handler) : List Nat :=
  if shouldCall p.1 then
    match runHandler p.2 with
    | Except.ok _ => acc ++ [p.2.id]
    | Except.error _ => acc ++ [p.2.id]
  else acc

/-- The forEach loop over the handler map: ids of the handlers invoked,
in registration order. -/
def forEachInvoke (shouldCall : List Nat → Bool) (table : List (List Nat × Handler)) : List Nat :=
  table.foldl (invokeStep shouldCall) []

/-- The handleMessage method: invoke the handler whose registered type
equals the type tag of the inbound message, and any handler registered
under the wildcard tag. -/
def handleMessage (table : List (List Nat × Handler)) (messageType : List Nat) : List Nat :=
  forEachInvoke (fun t => messageType == t || t == str2codes "all") table

/-- The notifyConnectionError method: deliver the synthetic
connection_error frame to the handlers registered for that tag or the
wildcard tag. -/
def notifyConnectionError (table : List (List Nat × Handler)) : List Nat :=
  forEachInvoke (fun t => t == str2codes "connection_error" || t == str2codes "all") table

/-- The mutable connection fields of the ChatService instance. -/
structure ChatState where
  hasWebsocket : Bool
  isConnected : Bool
  reconnectAttempts : Nat
  reconnectDelay : Nat
deriving DecidableEq, Repr

/-- The maxReconnectAttempts constant. -/
def maxReconnectAttempts : Nat := 5

/-- The state the constructor leaves behind: no websocket, not
connected, zero attempts, one-second base delay. -/
def initialChatState : ChatState :=
  { hasWebsocket := false, isConnected := false, reconnectAttempts := 0, reconnectDelay := 1000 }

/-- Effect of connect reaching the onopen callback: the websocket is
open, the service is connected, and attempts and delay reset to the
base values. -/
def connectSuccess (s : ChatState) : ChatState :=
  { s with hasWebsocket := true, isConnected := true, reconnectAttempts := 0, reconnectDelay := 1000 }

/-- A freshly connected service: the starting point of the backoff
scenarios. -/
def connectedFresh : ChatState := connectSuccess initialChatState

/-- The attemptReconnect method: increment the attempt counter,
schedule a reconnect after the current delay (the returned value), then
double the delay up to the 30000 ms ceiling. -/
def attemptReconnect (s : ChatState) : Nat × ChatState :=
  (s.reconnectDelay,
   { s with reconnectAttempts := s.reconnectAttempts + 1,
            reconnectDelay := min (s.reconnectDelay * 2) 30000 })

/-- The close code disconnect passes to WebSocket.close: normal
(voluntary) closure. -/
def userDisconnectCode : Nat := 1000

/-- A close code of an involuntary closure (abnormal closure as
delivered by the browser when the connection drops). -/
def involuntaryCloseCode : Nat := 1006

/-- The onclose callback: mark the service disconnected and, when the
closure was not the voluntary code 1000 and the attempt budget is not
exhausted, run attemptReconnect; the first component is the scheduled
reconnect delay, none when no reconnect is triggered. -/
def handleClose (code : Nat) (s : ChatState) : Option Nat × ChatState :=
  let s1 := { s with isConnected := false }
  if code ≠ 1000 ∧ s1.reconnectAttempts < maxReconnectAttempts then
    let r := attemptReconnect s1
    (some r.1, r.2)
  else
    (none, s1)

/-- The disconnect method: when a websocket exists, close it with the
voluntary code 1000 and clear the handle and the connected flag. -/
def disconnect (s : ChatState) : ChatState :=
  if s.hasWebsocket then { s with hasWebsocket := false, isConnected := false } else s

/-- The catch branch of the connect promise inside attemptReconnect:
when a scheduled reconnect fails after the budget is exhausted, the
connection_error notification is raised; otherwise nothing is
delivered. -/
def reconnectFailureNotification (s : ChatState) (table : List (List Nat × Handler)) : List Nat :=
  if maxReconnectAttempts ≤ s.reconnectAttempts then notifyConnectionError table else []

/-- A run of consecutive involuntary connection failures: each failure
fires onclose with an abnormal code; collect the scheduled reconnect
delay of every failure. -/
def runFailures : Nat → ChatState → List (Option Nat) × ChatState
  | 0, s => ([], s)
  | n + 1, s =>
    let r := handleClose involuntaryCloseCode s
    let rest := runFailures n r.2
    (r.1 :: rest.1, rest.2)

/-- The data object of an outbound chat frame. -/
structure ChatFrameData where
  contact_id : List Nat
  message : List Nat
  security_level : List Nat
deriving DecidableEq, Repr

/-- An outbound chat frame as serialized by sendMessage. -/
structure ChatFrame where
  type : List Nat
  data : ChatFrameData
deriving DecidableEq, Repr

/-- The error message of the not-connected throw in sendMessage. -/
def notConnectedMessage : List Nat := str2codes "WebSocket not connected"

/-- The sendMessage method: throw when the service is not connected or
has no websocket (no frame is built or transmitted), otherwise pass the
chat_message frame to the underlying socket.  The source defaults
securityLevel to the L2 tag; the parameter is explicit here. -/
def sendMessage (s : ChatState) (contactId message securityLevel : List Nat) :
    Except (List Nat) ChatFrame :=
  if !s.isConnected || !s.hasWebsocket then
    Except.error notConnectedMessage
  else
    Except.ok { type := str2codes "chat_message",
                data := { contact_id := contactId, message := message,
                          security_level := securityLevel } }

/-- The handleMessage method together with the state it leaves behind:
the source reads the handler map and mutates neither the connection
fields nor the map. -/
def handleMessageFull (s : ChatState) (table : List (List Nat × Handler)) (messageType : List Nat) :
    ChatState × List (List Nat × Handler) × List Nat :=
  (s, table, handleMessage table messageType)

/-!
Claim theorems for the hybrid key exchange.
-/

/-- The hash loop is the left fold of the hash step. -/
theorem hashLoop_eq_foldl (l : List Nat) : ∀ h : Int, hashLoop l h = l.foldl hashStep h := by
  induction l with
  | nil => intro h; rfl
  | cons c rest ih =>
    intro h
    have hstep : hashLoop (c :: rest) h = hashLoop rest (hashStep h c) := by
      cases hs : hashStep h c <;> simp [hashLoop, hs]
    rw [hstep, List.foldl, ih]

/-- Test vector of the embedded hash against the JS implementation on a
positive final state. -/
theorem simpleHash_vector_positive :
    simpleHash (str2codes "abc") = str2codes "00017862000178620001786200017862" := by decide

/-- Test vector of the embedded hash on a negative final state: JS
renders the sign, and padStart leaves the 9-character block unchanged. -/
theorem simpleHash_vector_negative :
    simpleHash (str2codes "QuMail") = str2codes "-6f323de5-6f323de5-6f323de5-6f323de5" := by decide

/-- Test vectors of the embedded btoa for the three padding shapes. -/
theorem btoa_vectors :
    btoa (str2codes "abc") = str2codes "YWJj" ∧
    btoa (str2codes "ab") = str2codes "YWI=" ∧
    btoa (str2codes "a") = str2codes "YQ==" := by
  refine ⟨by decide, by decide, by decide⟩

/-- Claim C1: decapsulateHybridKey on an honest encapsulation returns
the session_key the encapsulating side computed.  The code refutes this
at a concrete generatable key pair: the simulated ECDH hashes
ourPrivate concatenated with remotePublic, which is not symmetric
between the two sides, so the decapsulated key differs from the
encapsulated one. -/
theorem c1_roundtrip_mismatch : decapsulateHybridKey enc0 kp0 ≠ enc0.session_key := by decide

/-- Claim C2 counterexample: two encapsulations against the same remote
public keys with different ephemeral randomness (so two genuinely
distinct invocations) produce the same Kyber ciphertext, contradicting
the claimed ciphertext freshness. -/
theorem c2_ciphertext_not_fresh :
    enc0.x25519_public_key ≠ enc1.x25519_public_key ∧
    enc0.kyber_ciphertext = enc1.kyber_ciphertext := by
  constructor
  · decide
  · rfl

/-- Claim C2 as amended: with the same remote public keys, two
invocations with different ephemeral public randomness yield two
different ephemeral classical public keys, but the Kyber ciphertext is
the same deterministic function of the remote public key in both. -/
theorem c2_freshness_amended (remote : HybridPublicKey) (p1 q1 p2 q2 : List Nat)
    (hq : q1 ≠ q2) :
    (encapsulateHybridKey remote p1 q1).x25519_public_key ≠
      (encapsulateHybridKey remote p2 q2).x25519_public_key ∧
    (encapsulateHybridKey remote p1 q1).kyber_ciphertext =
      (encapsulateHybridKey remote p2 q2).kyber_ciphertext := by
  constructor
  · simpa [encapsulateHybridKey] using hq
  · rfl

/-- Witness for c2_freshness_amended at concrete inputs. -/
theorem c2_freshness_amended_witness :
    (encapsulateHybridKey ⟨[0], [1]⟩ [2] [3]).x25519_public_key ≠
      (encapsulateHybridKey ⟨[0], [1]⟩ [4] [5]).x25519_public_key ∧
    (encapsulateHybridKey ⟨[0], [1]⟩ [2] [3]).kyber_ciphertext =
      (encapsulateHybridKey ⟨[0], [1]⟩ [4] [5]).kyber_ciphertext :=
  c2_freshness_amended ⟨[0], [1]⟩ [2] [3] [4] [5] (by decide)

/-- Claim C3: a zero-length Kyber ciphertext is supposed to raise a
DecapsulationError.  The code refutes this: decapsulation never reads
the ciphertext, so the truncated input is silently accepted and yields
the very same session key as the honest ciphertext; no error path
exists in the body. -/
theorem c3_zero_ciphertext_accepted :
    encZeroCt.kyber_ciphertext = [] ∧
    decapsulateHybridKey encZeroCt kp0 = decapsulateHybridKey enc0 kp0 ∧
    decapsulateHybridKey encZeroCt kp0 = str2codes "1ca8a6431ca8a6431ca8a6431ca8a643" := by
  refine ⟨rfl, rfl, by decide⟩

/-- Claim C4 counterexample: the claim says the transmitted ciphertext
message contains the PQ auth tag; for a concrete encapsulation the auth
tag is not among the transmitted field values (the source never sends
it). -/
theorem c4_auth_tag_not_transmitted :
    enc0.kyber_auth_tag ∉ bodyFields (sendHybridCiphertextBody enc0 none) := by decide

/-- Claim C4 as amended: the transmitted message consists of exactly
the PQ ciphertext, the ephemeral classical public key and a signature
(the placeholder when the encapsulated data carries none); the PQ auth
tag is not among them, and the message is independent of the session_key
field, so the derived session key never travels. -/
theorem c4_transmitted_fields (e : EncapsulationResult) (sig : Option (List Nat)) :
    bodyFields (sendHybridCiphertextBody e sig) =
      [e.kyber_ciphertext, e.x25519_public_key, sig.getD (str2codes "placeholder_signature")] ∧
    ∀ k : List Nat, sendHybridCiphertextBody { e with session_key := k } sig =
      sendHybridCiphertextBody e sig :=
  ⟨rfl, fun _ => rfl⟩

/-- Claim C5: the session key derivation is the KDF of the PQ shared
secret concatenated with the classical shared secret, in that fixed
order, under the fixed context label, which carries the version suffix;
being a function of its two arguments, the derivation is deterministic. -/
theorem c5_kdf_contract :
    (∀ pqSharedSecret classicalSharedSecret : List Nat,
      deriveHybridSessionKey pqSharedSecret classicalSharedSecret =
        kdfContract pqSharedSecret classicalSharedSecret hybridSessionKeyLabel) ∧
    (str2codes "-v1") <:+ hybridSessionKeyLabel :=
  ⟨fun _ _ => rfl, by decide⟩

/-- Claim C10: the decapsulated session key does not depend on the
kyber_ciphertext or kyber_auth_tag fields of the input: any two inputs
agreeing on the ephemeral classical public key decapsulate to the same
key under the same key pair. -/
theorem c10_decap_ignores_ciphertext (e1 e2 : EncapsulationResult) (kp : HybridKeyPair)
    (hpub : e1.x25519_public_key = e2.x25519_public_key) :
    decapsulateHybridKey e1 kp = decapsulateHybridKey e2 kp := by
  simp [decapsulateHybridKey, kyberDecapsulate, hpub]

/-- Witness for c10_decap_ignores_ciphertext: two inputs with the same
classical public key and arbitrarily different ciphertext, auth tag and
session_key fields. -/
theorem c10_decap_ignores_ciphertext_witness :
    decapsulateHybridKey ⟨[1], [2], [3], [4]⟩ ⟨[5], [6], [7], [8]⟩ =
      decapsulateHybridKey ⟨[1], [9], [10], [11]⟩ ⟨[5], [6], [7], [8]⟩ :=
  c10_decap_ignores_ciphertext ⟨[1], [2], [3], [4]⟩ ⟨[1], [9], [10], [11]⟩ ⟨[5], [6], [7], [8]⟩ rfl

/-!
Claim theorems for the transport layer.
-/

/-- One forEach iteration appends the handler id exactly when the guard
accepts the registered tag, whether or not the handler throws. -/
theorem invokeStep_eq (sc : List Nat → Bool) (acc : List Nat) (p : List Nat × Handler) :
    invokeStep sc acc p = acc ++ (if sc p.1 then [p.2.id] else []) := by
  unfold invokeStep runHandler
  by_cases hsc : sc p.1 <;> by_cases ht : p.2.throws <;> simp [hsc, ht]

/-- The forEach fold from any accumulator appends the ids of exactly
the entries accepted by the guard, in order. -/
theorem foldl_invokeStep (sc : List Nat → Bool) (table : List (List Nat × Handler)) :
    ∀ acc : List Nat,
      table.foldl (invokeStep sc) acc =
        acc ++ (table.filter (fun p => sc p.1)).map (fun p => p.2.id) := by
  induction table with
  | nil => intro acc; simp
  | cons p rest ih =>
    intro acc
    rw [List.foldl_cons, invokeStep_eq, ih]
    by_cases hsc : sc p.1 <;> simp [hsc, List.filter_cons]

/-- The invoked handlers are exactly the entries the guard accepts. -/
theorem forEachInvoke_eq (sc : List Nat → Bool) (table : List (List Nat × Handler)) :
    forEachInvoke sc table = (table.filter (fun p => sc p.1)).map (fun p => p.2.id) := by
  simpa [forEachInvoke] using foldl_invokeStep sc table []

/-- Claim C9: dispatch invokes exactly the handlers registered under
the inbound type tag or the wildcard tag, in registration order; which
handlers are invoked is unchanged when every handler is replaced by one
with any fixed throwing behaviour (a throw is caught and logged and
stops nothing); and neither the connection state nor the handler table
is modified. -/
theorem c9_dispatch (s : ChatState) (table : List (List Nat × Handler)) (messageType : List Nat) :
    (handleMessageFull s table messageType).1 = s ∧
    (handleMessageFull s table messageType).2.1 = table ∧
    handleMessage table messageType =
      (table.filter (fun p => messageType == p.1 || p.1 == str2codes "all")).map
        (fun p => p.2.id) ∧
    ∀ b : Bool,
      handleMessage (table.map (fun p => (p.1, { id := p.2.id, throws := b }))) messageType =
        handleMessage table messageType := by
  refine ⟨rfl, rfl, forEachInvoke_eq _ table, ?_⟩
  intro b
  rw [handleMessage, handleMessage, forEachInvoke_eq, forEachInvoke_eq, List.filter_map,
    List.map_map]
  rfl

/-- Claim C6: from a fresh connection, five consecutive involuntary
failures schedule reconnects after 1000, 2000, 4000, 8000 and 16000 ms
(doubling from the 1 s base under the 30 s ceiling); the budget is then
exhausted, a sixth failure schedules nothing, and the failed fifth
attempt raises the connection_error notification, delivered to exactly
the handlers registered under the connection_error tag or the wildcard
tag. -/
theorem c6_backoff_exhaustion :
    (runFailures 5 connectedFresh).1 =
      [some 1000, some 2000, some 4000, some 8000, some 16000] ∧
    (runFailures 5 connectedFresh).2.reconnectAttempts = maxReconnectAttempts ∧
    (handleClose involuntaryCloseCode (runFailures 5 connectedFresh).2).1 = none ∧
    ∀ table : List (List Nat × Handler),
      reconnectFailureNotification (runFailures 5 connectedFresh).2 table =
        (table.filter (fun p =>
          p.1 == str2codes "connection_error" || p.1 == str2codes "all")).map
          (fun p => p.2.id) := by
  refine ⟨by decide, by decide, by decide, ?_⟩
  intro table
  rw [reconnectFailureNotification,
    if_pos (by decide : maxReconnectAttempts ≤ (runFailures 5 connectedFresh).2.reconnectAttempts),
    notifyConnectionError, forEachInvoke_eq]

/-- Claim C7: an explicit disconnect closes with the voluntary code and
leaves the channel disconnected, and a closure with the voluntary code
never schedules a reconnect; an involuntary closure leaves the channel
disconnected and triggers the reconnection logic exactly when the
attempt budget is not exhausted. -/
theorem c7_closure_policy :
    (∀ s : ChatState, s.hasWebsocket = true →
      (disconnect s).isConnected = false ∧ (disconnect s).hasWebsocket = false) ∧
    (∀ s : ChatState, (handleClose userDisconnectCode s).1 = none ∧
      (handleClose userDisconnectCode s).2.isConnected = false) ∧
    (∀ (code : Nat) (s : ChatState), code ≠ 1000 →
      s.reconnectAttempts < maxReconnectAttempts →
      (handleClose code s).1 = some s.reconnectDelay ∧
      (handleClose code s).2.isConnected = false ∧
      (handleClose code s).2.reconnectAttempts = s.reconnectAttempts + 1) ∧
    (∀ (code : Nat) (s : ChatState), maxReconnectAttempts ≤ s.reconnectAttempts →
      (handleClose code s).1 = none) := by
  refine ⟨?_, ?_, ?_, ?_⟩
  · intro s hws
    simp [disconnect, hws]
  · intro s
    simp [handleClose, userDisconnectCode]
  · intro code s hc hlt
    simp [handleClose, attemptReconnect, hc, hlt]
  · intro code s hge
    have : ¬ s.reconnectAttempts < maxReconnectAttempts := by omega
    simp [handleClose, this]

/-- Witness for c7_closure_policy: a fresh connected service,
voluntarily disconnected, and an involuntary failure on it. -/
theorem c7_closure_policy_witness :
    ((disconnect connectedFresh).isConnected = false ∧
      (disconnect connectedFresh).hasWebsocket = false) ∧
    (handleClose involuntaryCloseCode connectedFresh).1 = some 1000 :=
  ⟨c7_closure_policy.1 connectedFresh rfl,
   (c7_closure_policy.2.2.1 involuntaryCloseCode connectedFresh (by decide) (by decide)).1⟩

/-- Claim C8: sendMessage on a service that is not connected (or whose
websocket is gone) fails with the not-connected error and produces no
frame; on a connected service the chat_message frame is passed to the
socket. -/
theorem c8_send_requires_connection (s : ChatState)
    (contactId message securityLevel : List Nat) :
    ((s.isConnected = false ∨ s.hasWebsocket = false) →
      sendMessage s contactId message securityLevel = Except.error notConnectedMessage) ∧
    (s.isConnected = true → s.hasWebsocket = true →
      sendMessage s contactId message securityLevel =
        Except.ok { type := str2codes "chat_message",
                    data := { contact_id := contactId, message := message,
                              security_level := securityLevel } }) := by
  constructor
  · rintro (h | h) <;> simp [sendMessage, h]
  · intro h1 h2
    simp [sendMessage, h1, h2]

/-- Witness for c8_send_requires_connection: the constructor state
rejects the send, a fresh connected service transmits the frame. -/
theorem c8_send_requires_connection_witness :
    sendMessage initialChatState [1] [2] [3] = Except.error notConnectedMessage ∧
    sendMessage connectedFresh [1] [2] [3] =
      Except.ok { type := str2codes "chat_message",
                  data := { contact_id := [1], message := [2], security_level := [3] } } :=
  ⟨(c8_send_requires_connection initialChatState [1] [2] [3]).1 (Or.inl rfl),
   (c8_send_requires_connection connectedFresh [1] [2] [3]).2 rfl rfl⟩
